import Mathlib

/-!
Verification of the Bookmark Collection Synchronizer
(src/src/components/Bookmarks.tsx) against its specification.

The component is shallowly embedded: the React state hooks become the
fields of `ComponentState`, and each async handler becomes a pure
function from the pre-state and the response of the external Data Store
to the post-state.  The platform URL parser (`new URL(...)`) is an
external collaborator and is passed in as a boolean oracle `parses`.
-/

namespace SmartBookmark

/-! ### Strings and URL normalization (Bookmarks.tsx lines 15-20) -/

/-- Whitespace predicate used by the `trim` of the host language. -/
def isSpaceChar (c : Char) : Bool := c.isWhitespace

/-- `String.prototype.trim`: drop whitespace from both ends. -/
def trimList (l : List Char) : List Char :=
  (l.dropWhile isSpaceChar).rdropWhile isSpaceChar

/-- String-level wrapper of `trimList`. -/
def trimStr (s : String) : String := ⟨trimList s.data⟩

/-- The characters of the pattern `http://`. -/
def httpPat : List Char := "http://".data

/-- The characters of the pattern `https://`. -/
def httpsPat : List Char := "https://".data

/-- The test `/^https?:\/\//i.test(v)` of Bookmarks.tsx line 18:
case-insensitive match of `http://` or `https://` at the start. -/
def hasHttpScheme (v : List Char) : Bool :=
  httpPat.isPrefixOf (v.map Char.toLower) || httpsPat.isPrefixOf (v.map Char.toLower)

/-- `normalizeUrl` of Bookmarks.tsx lines 15-20: trim; empty stays
empty; values without an http(s) scheme get `https://` prefixed. -/
def normalizeUrl (raw : String) : String :=
  let v := trimList raw.data
  if v = [] then ""
  else if hasHttpScheme v = false then ⟨httpsPat ++ v⟩
  else ⟨v⟩

/-- Modelled from the spec: a URL is "already absolute" when it starts
with a scheme, i.e. an alphabetic character followed by scheme
characters and a colon (the generic URI syntax).  The source only ever
consults `hasHttpScheme`; this definition exists to state the spec
clause "already absolute (has a scheme)" faithfully to its words. -/
def isSchemeChar (c : Char) : Bool := c.isAlphanum || c = '+' || c = '-' || c = '.'

/-- Modelled from the spec: see `isSchemeChar`. -/
def hasSchemeSpec (s : String) : Bool :=
  match s.data with
  | [] => false
  | c :: rest => c.isAlpha && ((rest.dropWhile isSchemeChar).head? == some ':')

/-! ### Data model (Bookmarks.tsx lines 7-13) -/

/-- A bookmark row as stored by the Data Store. -/
structure Bookmark where
  id : String
  user_id : String
  title : String
  url : String
  created_at : String
deriving DecidableEq, Repr

/-- The kind of a toast message: success or error. -/
inductive MsgType
  | ok
  | err
deriving DecidableEq, Repr

/-- A toast message (the `message` state hook, lines 43-46). -/
structure Message where
  type : MsgType
  text : String
deriving DecidableEq, Repr

/-- The state hooks of the component (lines 34-46). -/
structure ComponentState where
  title : String
  url : String
  items : List Bookmark
  loading : Bool
  submitting : Bool
  deletingId : Option String
  message : Option Message
deriving DecidableEq, Repr

/-! ### External Data Store responses -/

/-- Response of the select in `fetchBookmarks` (lines 52-55): either an
error, or data that may be absent (the code writes `data ?? []`). -/
inductive FetchResult
  | success (data : Option (List Bookmark))
  | failure (msg : String)
deriving DecidableEq, Repr

/-- Response of the insert in `addBookmark` (lines 194-199): either an
error, or the inserted row (possibly absent, the degenerate case). -/
inductive InsertResult
  | success (row : Option Bookmark)
  | failure (msg : String)
deriving DecidableEq, Repr

/-- Response of the delete in `deleteBookmark` (line 229). -/
inductive DeleteResult
  | success
  | failure (msg : String)
deriving DecidableEq, Repr

/-- The payload of an insert issued to the Data Store (line 196). -/
structure InsertPayload where
  user_id : String
  title : String
  url : String
deriving DecidableEq, Repr

/-! ### Operations -/

/-- `fetchBookmarks` (lines 51-62): on error set an error message and
leave `items` alone; on success replace `items` with the snapshot. -/
def fetchBookmarks (s : ComponentState) (r : FetchResult) : ComponentState :=
  match r with
  | FetchResult.failure msg => { s with message := some ⟨MsgType.err, msg⟩ }
  | FetchResult.success d => { s with items := d.getD [] }

/-- The initial-load effect (lines 129-137): set `loading`, run
`fetchBookmarks`, clear `loading` when it completes. -/
def initialLoad (s : ComponentState) (r : FetchResult) : ComponentState :=
  let s1 := { s with loading := true }
  let s2 := fetchBookmarks s1 r
  { s2 with loading := false }

/-- `addBookmark` (lines 176-219) as a function of the pre-state, the
URL-parser oracle, the store response to the insert, and the store
response to the fallback refetch.  Returns the post-state together with
the insert payload issued to the store (`none` when validation failed
and no insert was issued). -/
def addBookmark (parses : String → Bool) (userId : String) (s : ComponentState)
    (store : InsertResult) (fetch : FetchResult) :
    ComponentState × Option InsertPayload :=
  let s0 := { s with message := none }
  let t := trimStr s.title
  let u := normalizeUrl s.url
  if t = "" then
    ({ s0 with message := some ⟨MsgType.err, "Please enter a title."⟩ }, none)
  else if u = "" then
    ({ s0 with message := some ⟨MsgType.err, "Please enter a URL."⟩ }, none)
  else if parses u = false then
    ({ s0 with message := some ⟨MsgType.err, "Please enter a valid URL."⟩ }, none)
  else
    let payload : InsertPayload := ⟨userId, t, u⟩
    match store with
    | InsertResult.failure msg =>
        ({ s0 with submitting := false, message := some ⟨MsgType.err, msg⟩ },
         some payload)
    | InsertResult.success (some row) =>
        ({ s0 with
            submitting := false
            items := row :: s0.items
            title := ""
            url := ""
            message := some ⟨MsgType.ok, "Bookmark added!"⟩ },
         some payload)
    | InsertResult.success none =>
        let s1 := fetchBookmarks { s0 with submitting := false } fetch
        ({ s1 with
            title := ""
            url := ""
            message := some ⟨MsgType.ok, "Bookmark added!"⟩ },
         some payload)

/-- The state of `addBookmark` at the moment it suspends awaiting the
store (line 194), i.e. after validation passed and `setSubmitting(true)`
ran but before any response arrived; `none` when validation failed. -/
def addBookmarkPending (parses : String → Bool) (s : ComponentState) :
    Option ComponentState :=
  let s0 := { s with message := none }
  let t := trimStr s.title
  let u := normalizeUrl s.url
  if t = "" then none
  else if u = "" then none
  else if parses u = false then none
  else some { s0 with submitting := true }

/-- `deleteBookmark` (lines 225-241): mark the id pending, await the
store; on error surface it, on success filter the row out by id. -/
def deleteBookmark (s : ComponentState) (id : String) (store : DeleteResult) :
    ComponentState :=
  let s0 := { s with message := none, deletingId := some id }
  match store with
  | DeleteResult.failure msg =>
      { s0 with deletingId := none, message := some ⟨MsgType.err, msg⟩ }
  | DeleteResult.success =>
      { s0 with
          deletingId := none
          items := s0.items.filter (fun b => b.id != id)
          message := some ⟨MsgType.ok, "Deleted."⟩ }

/-! ### Transient notice timer (lines 165-169) -/

/-- The delay, in milliseconds, of the toast auto-hide timer. -/
def noticeDelay : Nat := 2500

/-- The toast state together with its pending clear deadline. -/
structure NoticeState where
  message : Option Message
  deadline : Option Nat
deriving DecidableEq, Repr

/-- Setting a message at time `now`: the effect of lines 165-169 runs,
clearing any previously scheduled timeout and scheduling a fresh one
`noticeDelay` later. -/
def setNotice (_ns : NoticeState) (m : Message) (now : Nat) : NoticeState :=
  { message := some m, deadline := some (now + noticeDelay) }

/-- Time reaching `now` with no intervening operation: a scheduled
timeout whose deadline has passed fires `setMessage(null)`. -/
def elapse (ns : NoticeState) (now : Nat) : NoticeState :=
  match ns.deadline with
  | some d => if d ≤ now then { message := none, deadline := none } else ns
  | none => ns

/-! ### Concrete sample data for witnesses -/

/-- The bookmark `A(id=1)` of spec scenario 6. -/
def bmA : Bookmark := ⟨"1", "u1", "A", "https://a.example", "t1"⟩

/-- The bookmark `B(id=2)` of spec scenario 6. -/
def bmB : Bookmark := ⟨"2", "u1", "B", "https://b.example", "t2"⟩

/-- A state whose collection is `[A(id=1), B(id=2)]`. -/
def twoItemState : ComponentState :=
  { title := "", url := "", items := [bmA, bmB], loading := false,
    submitting := false, deletingId := none, message := none }

/-- A state whose title input is blank (whitespace only). -/
def stBlankTitle : ComponentState :=
  { title := " ", url := "x", items := [], loading := false,
    submitting := false, deletingId := none, message := none }

/-- The form state of spec scenario 7: title `Docs`, URL `example.org/x`. -/
def docsState : ComponentState :=
  { title := "Docs", url := "example.org/x", items := [], loading := false,
    submitting := false, deletingId := none, message := none }

/-- The row returned by the store in spec scenario 7. -/
def row9 : Bookmark := ⟨"9", "u1", "Docs", "https://example.org/x", "t9"⟩

/-! ### Lemmas about trimming -/

theorem dropWhile_rdropWhile_of_trimmed (m : List Char)
    (hm : m.dropWhile isSpaceChar = m) :
    (m.rdropWhile isSpaceChar).dropWhile isSpaceChar = m.rdropWhile isSpaceChar := by
  rw [List.dropWhile_eq_self_iff]
  intro hl
  have hpre : m.rdropWhile isSpaceChar <+: m := List.rdropWhile_prefix _ _
  have hlm : 0 < m.length := lt_of_lt_of_le hl hpre.length_le
  have hget : (m.rdropWhile isSpaceChar).get ⟨0, hl⟩ = m.get ⟨0, hlm⟩ := by
    simpa [List.get_eq_getElem] using List.IsPrefix.getElem hpre hl
  rw [hget]
  exact (List.dropWhile_eq_self_iff.mp hm) hlm

theorem trimList_trimList (l : List Char) : trimList (trimList l) = trimList l := by
  unfold trimList
  rw [dropWhile_rdropWhile_of_trimmed _ (List.dropWhile_idempotent _ _),
      List.rdropWhile_idempotent]

theorem isPrefixOf_append_self (l t : List Char) : l.isPrefixOf (l ++ t) = true := by
  induction l with
  | nil => simp
  | cons c cs ih => simp [List.isPrefixOf_cons₂, ih]

theorem hasHttpScheme_https_append (v : List Char) :
    hasHttpScheme (httpsPat ++ v) = true := by
  unfold hasHttpScheme
  have h1 : (httpsPat ++ v).map Char.toLower = httpsPat ++ v.map Char.toLower := by
    rw [List.map_append, show httpsPat.map Char.toLower = httpsPat from by decide]
  rw [h1, isPrefixOf_append_self, Bool.or_true]

theorem trimList_https_append (l : List Char) (hv : trimList l ≠ []) :
    trimList (httpsPat ++ trimList l) = httpsPat ++ trimList l := by
  have hsplit : httpsPat ++ trimList l = 'h' :: ("ttps://".data ++ trimList l) := by
    rw [show httpsPat = 'h' :: "ttps://".data from by decide]
    rfl
  have hd : (httpsPat ++ trimList l).dropWhile isSpaceChar = httpsPat ++ trimList l := by
    rw [hsplit, List.dropWhile_cons_of_neg (by decide)]
  have hr : (httpsPat ++ trimList l).rdropWhile isSpaceChar = httpsPat ++ trimList l := by
    rw [List.rdropWhile_eq_self_iff]
    intro hl
    rw [List.getLast_append' httpsPat (trimList l) hv]
    exact List.rdropWhile_last_not isSpaceChar _ hv
  show ((httpsPat ++ trimList l).dropWhile isSpaceChar).rdropWhile isSpaceChar = _
  rw [hd, hr]

/-! ### Lemmas computing normalizeUrl by case -/

theorem normalizeUrl_of_blank (raw : String) (h : trimList raw.data = []) :
    normalizeUrl raw = "" := by
  simp [normalizeUrl, h]

theorem normalizeUrl_of_noScheme (raw : String) (h0 : trimList raw.data ≠ [])
    (h1 : hasHttpScheme (trimList raw.data) = false) :
    normalizeUrl raw = ⟨httpsPat ++ trimList raw.data⟩ := by
  simp [normalizeUrl, h0, h1]

theorem normalizeUrl_of_scheme (raw : String) (h0 : trimList raw.data ≠ [])
    (h1 : hasHttpScheme (trimList raw.data) = true) :
    normalizeUrl raw = ⟨trimList raw.data⟩ := by
  simp [normalizeUrl, h0, h1]

theorem mk_eq_empty_iff (l : List Char) : String.mk l = "" ↔ l = [] := by
  constructor
  · intro h
    exact congrArg String.data h
  · intro h
    rw [h]

theorem normalizeUrl_eq_empty_iff (raw : String) :
    normalizeUrl raw = "" ↔ trimStr raw = "" := by
  have htrim : trimStr raw = "" ↔ trimList raw.data = [] := mk_eq_empty_iff _
  constructor
  · intro h
    by_cases h0 : trimList raw.data = []
    · exact htrim.mpr h0
    · exfalso
      by_cases h1 : hasHttpScheme (trimList raw.data) = true
      · rw [normalizeUrl_of_scheme raw h0 h1] at h
        exact h0 ((mk_eq_empty_iff _).mp h)
      · have h1f : hasHttpScheme (trimList raw.data) = false := by
          revert h1
          cases hasHttpScheme (trimList raw.data) <;> simp
        rw [normalizeUrl_of_noScheme raw h0 h1f] at h
        have := (mk_eq_empty_iff _).mp h
        exact absurd (congrArg List.length this) (by simp [httpsPat])
  · intro h
    exact normalizeUrl_of_blank raw (htrim.mp h)

theorem normalizeUrl_idem (raw : String) :
    normalizeUrl (normalizeUrl raw) = normalizeUrl raw := by
  by_cases h0 : trimList raw.data = []
  · rw [normalizeUrl_of_blank raw h0]
    exact normalizeUrl_of_blank "" (by decide)
  · by_cases h1 : hasHttpScheme (trimList raw.data) = true
    · rw [normalizeUrl_of_scheme raw h0 h1]
      have hdata : (String.mk (trimList raw.data)).data = trimList raw.data := rfl
      have ht : trimList (String.mk (trimList raw.data)).data = trimList raw.data := by
        rw [hdata]
        exact trimList_trimList raw.data
      rw [normalizeUrl_of_scheme ⟨trimList raw.data⟩ (by rw [ht]; exact h0)
        (by rw [ht]; exact h1), ht]
    · have h1f : hasHttpScheme (trimList raw.data) = false := by
        revert h1
        cases hasHttpScheme (trimList raw.data) <;> simp
      rw [normalizeUrl_of_noScheme raw h0 h1f]
      have ht : trimList (String.mk (httpsPat ++ trimList raw.data)).data
          = httpsPat ++ trimList raw.data := trimList_https_append raw.data h0
      have hne : httpsPat ++ trimList raw.data ≠ [] := by
        intro hc
        exact absurd (congrArg List.length hc) (by simp [httpsPat])
      rw [normalizeUrl_of_scheme ⟨httpsPat ++ trimList raw.data⟩ (by rw [ht]; exact hne)
        (by rw [ht]; exact hasHttpScheme_https_append _), ht]

/-! ### Claim C5 -/

/-- C5 counterexample: the URL `ftp://example.com` is already absolute
(it has a scheme) and is unaffected by trimming, yet `normalizeUrl`
does not return it unchanged: the code tests only for an http or https
scheme and prefixes `https://` to everything else. -/
theorem C5_scheme_not_preserved :
    hasSchemeSpec "ftp://example.com" = true ∧
    trimStr "ftp://example.com" = "ftp://example.com" ∧
    normalizeUrl "ftp://example.com" ≠ "ftp://example.com" := by
  refine ⟨by decide, by decide, by decide⟩

/-- C5 (amended): URL normalization is idempotent; a URL whose trimmed
form already carries an http or https scheme (case-insensitively) is
returned unchanged apart from trimming; the default https scheme is
prefixed to the trimmed form exactly when that form is non-empty and
carries no http(s) scheme, a blank input normalizing to the empty
string; and normalizing `example.com` yields `https://example.com`. -/
theorem C5_normalizeUrl_idempotent :
    (∀ raw : String, normalizeUrl (normalizeUrl raw) = normalizeUrl raw) ∧
    (∀ raw : String, hasHttpScheme (trimList raw.data) = true →
      normalizeUrl raw = trimStr raw) ∧
    (∀ raw : String, trimStr raw ≠ "" →
      hasHttpScheme (trimList raw.data) = false →
      normalizeUrl raw = ⟨httpsPat ++ trimList raw.data⟩) ∧
    (∀ raw : String, trimStr raw = "" → normalizeUrl raw = "") ∧
    normalizeUrl "example.com" = "https://example.com" := by
  refine ⟨normalizeUrl_idem, ?_, ?_, ?_, by decide⟩
  · intro raw h1
    have h0 : trimList raw.data ≠ [] := by
      intro hc
      rw [hc] at h1
      exact absurd h1 (by decide)
    exact normalizeUrl_of_scheme raw h0 h1
  · intro raw hne h1
    exact normalizeUrl_of_noScheme raw
      (fun hc => hne ((mk_eq_empty_iff _).mpr hc)) h1
  · intro raw h
    exact normalizeUrl_of_blank raw ((mk_eq_empty_iff _).mp h)

/-- C5 witness: the second conjunct applied at a concrete input. -/
theorem C5_normalizeUrl_idempotent_witness :
    normalizeUrl " HTTP://Ex.com " = trimStr " HTTP://Ex.com " :=
  C5_normalizeUrl_idempotent.2.1 " HTTP://Ex.com " (by decide)

/-! ### Claim C1 -/

/-- C1: a completed successful refresh replaces the collection with
exactly the snapshot the Data Store returned for that fetch, whatever
the prior contents were, and when two refreshes are applied in
sequence the collection equals the snapshot of the one applied last,
never a merge of both. -/
theorem C1_refresh_last_wins (s s2 : ComponentState)
    (d1 d2 : Option (List Bookmark)) :
    (fetchBookmarks s (FetchResult.success d2)).items = d2.getD [] ∧
    (fetchBookmarks (fetchBookmarks s (FetchResult.success d1))
        (FetchResult.success d2)).items = d2.getD [] ∧
    (fetchBookmarks s (FetchResult.success d2)).items
      = (fetchBookmarks s2 (FetchResult.success d2)).items :=
  ⟨rfl, rfl, rfl⟩

/-! ### Claim C2 -/

/-- C2: when the trimmed title is empty, or the trimmed URL is empty,
or the coerced URL fails parsing, `addBookmark` issues no insert,
leaves the collection unchanged, and sets an error notice; the checks
apply in the order title, URL non-empty, URL parses, as the nested
conditional on the message shows. -/
theorem C2_add_validation (parses : String → Bool) (userId : String)
    (s : ComponentState) (store : InsertResult) (fetch : FetchResult)
    (h : trimStr s.title = "" ∨ trimStr s.url = ""
      ∨ parses (normalizeUrl s.url) = false) :
    (addBookmark parses userId s store fetch).2 = none ∧
    (addBookmark parses userId s store fetch).1.items = s.items ∧
    (addBookmark parses userId s store fetch).1.message =
      some ⟨MsgType.err,
        if trimStr s.title = "" then "Please enter a title."
        else if normalizeUrl s.url = "" then "Please enter a URL."
        else "Please enter a valid URL."⟩ := by
  by_cases hT : trimStr s.title = ""
  · simp [addBookmark, hT]
  · by_cases hU : normalizeUrl s.url = ""
    · simp [addBookmark, hT, hU]
    · have hP : parses (normalizeUrl s.url) = false := by
        rcases h with h | h | h
        · exact absurd h hT
        · exact absurd ((normalizeUrl_eq_empty_iff s.url).mpr h) hU
        · exact h
      simp [addBookmark, hT, hU, hP]

/-- C2 witness: a blank title is rejected without an insert. -/
theorem C2_add_validation_witness :
    (addBookmark (fun _ => true) "u1" stBlankTitle
      (InsertResult.failure "e") (FetchResult.failure "f")).2 = none :=
  (C2_add_validation (fun _ => true) "u1" stBlankTitle
    (InsertResult.failure "e") (FetchResult.failure "f")
    (Or.inl (by decide))).1

/-! ### Claim C3 -/

/-- C3: a successful `deleteBookmark` leaves no record with the given
id in the collection (removal is by identifier) and clears the
pending-mutation marker; on store failure the collection is unchanged,
the marker is cleared, and the store error is surfaced; concretely,
removing id `1` from `[A(id=1), B(id=2)]` yields `[B(id=2)]`. -/
theorem C3_remove (s : ComponentState) (id : String) :
    (∀ b ∈ (deleteBookmark s id DeleteResult.success).items, b.id ≠ id) ∧
    (deleteBookmark s id DeleteResult.success).deletingId = none ∧
    (∀ msg : String,
      (deleteBookmark s id (DeleteResult.failure msg)).items = s.items ∧
      (deleteBookmark s id (DeleteResult.failure msg)).deletingId = none ∧
      (deleteBookmark s id (DeleteResult.failure msg)).message
        = some ⟨MsgType.err, msg⟩) ∧
    (deleteBookmark twoItemState "1" DeleteResult.success).items = [bmB] := by
  refine ⟨?_, rfl, fun msg => ⟨rfl, rfl, rfl⟩, by decide⟩
  intro b hb
  have hb2 : b ∈ s.items.filter (fun b => b.id != id) := hb
  simpa using List.of_mem_filter hb2

/-- C3 witness: the surviving record of the concrete scenario. -/
theorem C3_remove_witness : bmB.id ≠ "1" :=
  (C3_remove twoItemState "1").1 bmB (by decide)

/-! ### Claim C4 -/

/-- C4: with well-formed inputs, an insert the store acknowledges with
the inserted row results in that row appearing exactly once, at the
head of the collection; and at the suspension point, before any store
response arrives, the collection still has its prior contents (no
speculative update). -/
theorem C4_add_confirmed (parses : String → Bool) (userId : String)
    (s : ComponentState) (row : Bookmark) (fetch : FetchResult)
    (hT : trimStr s.title ≠ "") (hU : normalizeUrl s.url ≠ "")
    (hP : parses (normalizeUrl s.url) = true)
    (hFresh : ∀ b ∈ s.items, b.id ≠ row.id) :
    (addBookmark parses userId s
      (InsertResult.success (some row)) fetch).1.items = row :: s.items ∧
    (addBookmark parses userId s
      (InsertResult.success (some row)) fetch).1.items.head? = some row ∧
    (addBookmark parses userId s
      (InsertResult.success (some row)) fetch).1.items.count row = 1 ∧
    (∀ pend ∈ addBookmarkPending parses s, pend.items = s.items) := by
  have hitems : (addBookmark parses userId s
      (InsertResult.success (some row)) fetch).1.items = row :: s.items := by
    simp [addBookmark, hT, hU, hP]
  refine ⟨hitems, ?_, ?_, ?_⟩
  · rw [hitems]
    rfl
  · rw [hitems, List.count_cons_self,
      List.count_eq_zero.mpr (fun hc => hFresh row hc rfl)]
  · intro pend hpend
    simp [addBookmarkPending, hT, hU, hP] at hpend
    rw [← hpend]

/-- C4 witness: spec scenario 7 at concrete inputs. -/
theorem C4_add_confirmed_witness :
    (addBookmark (fun _ => true) "u1" docsState
      (InsertResult.success (some row9)) (FetchResult.failure "f")).1.items
      = [row9] :=
  (C4_add_confirmed (fun _ => true) "u1" docsState row9 (FetchResult.failure "f")
    (by decide) (by decide) rfl (by simp [docsState])).1

/-! ### Claim C6 -/

/-- C6: when the store rejects the insert, its error message is
surfaced verbatim as the error notice and the collection is unchanged;
the same conversion to a notice happens for a failed delete. -/
theorem C6_store_rejection (parses : String → Bool) (userId : String)
    (s : ComponentState) (fetch : FetchResult) (msg : String)
    (hT : trimStr s.title ≠ "") (hU : normalizeUrl s.url ≠ "")
    (hP : parses (normalizeUrl s.url) = true) :
    (addBookmark parses userId s (InsertResult.failure msg) fetch).1.message
      = some ⟨MsgType.err, msg⟩ ∧
    (addBookmark parses userId s (InsertResult.failure msg) fetch).1.items
      = s.items ∧
    (∀ s2 : ComponentState, ∀ id : String,
      (deleteBookmark s2 id (DeleteResult.failure msg)).message
        = some ⟨MsgType.err, msg⟩ ∧
      (deleteBookmark s2 id (DeleteResult.failure msg)).items = s2.items) := by
  refine ⟨?_, ?_, fun s2 id => ⟨rfl, rfl⟩⟩ <;> simp [addBookmark, hT, hU, hP]

/-- C6 witness: a concrete rejected insert. -/
theorem C6_store_rejection_witness :
    (addBookmark (fun _ => true) "u1" docsState
      (InsertResult.failure "duplicate key") (FetchResult.failure "f")).1.message
      = some ⟨MsgType.err, "duplicate key"⟩ :=
  (C6_store_rejection (fun _ => true) "u1" docsState (FetchResult.failure "f")
    "duplicate key" (by decide) (by decide) rfl).1

/-! ### Claim C7 -/

/-- C7: the initial load clears `loading` whether the snapshot fetch
succeeds or fails; on failure it surfaces the error as a notice and
leaves the collection at its last known good value. -/
theorem C7_initialLoad (s : ComponentState) (r : FetchResult) :
    (initialLoad s r).loading = false ∧
    (∀ msg : String,
      (initialLoad s (FetchResult.failure msg)).items = s.items ∧
      (initialLoad s (FetchResult.failure msg)).message
        = some ⟨MsgType.err, msg⟩) := by
  refine ⟨?_, fun msg => ⟨rfl, rfl⟩⟩
  cases r <;> rfl

/-! ### Claim C8 -/

/-- C8: setting a notice at time `t` schedules a clear at `t + 2500`;
with no further operation the notice is cleared once that deadline is
reached and not before; setting a new notice replaces any pending
deadline with its own. -/
theorem C8_notice_timer (ns : NoticeState) (m m2 : Message)
    (t t2 later : Nat) (h : t + noticeDelay ≤ later) :
    (setNotice ns m t).deadline = some (t + 2500) ∧
    elapse (setNotice ns m t) later = ⟨none, none⟩ ∧
    setNotice (setNotice ns m t) m2 t2 = ⟨some m2, some (t2 + 2500)⟩ ∧
    (∀ u : Nat, u < t + noticeDelay →
      elapse (setNotice ns m t) u = setNotice ns m t) := by
  refine ⟨rfl, ?_, rfl, ?_⟩
  · simp only [elapse, setNotice]
    rw [if_pos h]
  · intro u hu
    simp only [elapse, setNotice]
    rw [if_neg (by omega)]

/-- C8 witness: a notice set at time 0 is cleared at time 2500. -/
theorem C8_notice_timer_witness :
    elapse (setNotice ⟨none, none⟩ ⟨MsgType.ok, "x"⟩ 0) 2500
      = ⟨none, none⟩ :=
  (C8_notice_timer ⟨none, none⟩ ⟨MsgType.ok, "x"⟩ ⟨MsgType.err, "y"⟩
    0 7 2500 (by decide)).2.1

/-! ### Claim C9 -/

/-- C9: deleting an id that is absent from the collection, when the
store reports success, leaves the collection exactly unchanged and
still sets the success notice. -/
theorem C9_remove_absent (s : ComponentState) (id : String)
    (h : ∀ b ∈ s.items, b.id ≠ id) :
    (deleteBookmark s id DeleteResult.success).items = s.items ∧
    (deleteBookmark s id DeleteResult.success).message
      = some ⟨MsgType.ok, "Deleted."⟩ := by
  refine ⟨?_, rfl⟩
  show s.items.filter (fun b => b.id != id) = s.items
  rw [List.filter_eq_self]
  intro b hb
  simpa using h b hb

/-- C9 witness: removing the absent id `3` from `[A(1), B(2)]`. -/
theorem C9_remove_absent_witness :
    (deleteBookmark twoItemState "3" DeleteResult.success).items
      = twoItemState.items :=
  (C9_remove_absent twoItemState "3" (by decide)).1

/-! ### Claim C10 -/

/-- C10: every successful add clears both input fields and sets the
success notice; and on every path of add, success or failure, the
`loading` flag and the pending-delete marker are untouched. -/
theorem C10_add_frame (parses : String → Bool) (userId : String)
    (s : ComponentState) :
    (trimStr s.title ≠ "" → normalizeUrl s.url ≠ "" →
      parses (normalizeUrl s.url) = true →
      ∀ (rowOpt : Option Bookmark) (fetch : FetchResult),
        (addBookmark parses userId s
          (InsertResult.success rowOpt) fetch).1.title = "" ∧
        (addBookmark parses userId s
          (InsertResult.success rowOpt) fetch).1.url = "" ∧
        (addBookmark parses userId s
          (InsertResult.success rowOpt) fetch).1.message
          = some ⟨MsgType.ok, "Bookmark added!"⟩) ∧
    (∀ (store : InsertResult) (fetch : FetchResult),
      (addBookmark parses userId s store fetch).1.loading = s.loading ∧
      (addBookmark parses userId s store fetch).1.deletingId = s.deletingId) := by
  constructor
  · intro hT hU hP rowOpt fetch
    cases rowOpt <;> cases fetch <;> simp [addBookmark, fetchBookmarks, hT, hU, hP]
  · intro store fetch
    by_cases hT : trimStr s.title = ""
    · simp [addBookmark, hT]
    · by_cases hU : normalizeUrl s.url = ""
      · simp [addBookmark, hT, hU]
      · by_cases hP : parses (normalizeUrl s.url) = true
        · cases store with
          | failure msg => simp [addBookmark, hT, hU, hP]
          | success rowOpt =>
              cases rowOpt <;> cases fetch <;>
                simp [addBookmark, fetchBookmarks, hT, hU, hP]
        · have hPf : parses (normalizeUrl s.url) = false := by
            revert hP
            cases parses (normalizeUrl s.url) <;> simp
          simp [addBookmark, hT, hU, hPf]

/-- C10 witness: the success-path conjunct at concrete inputs. -/
theorem C10_add_frame_witness :
    (addBookmark (fun _ => true) "u1" docsState
      (InsertResult.success (some row9)) (FetchResult.failure "f")).1.title
      = "" :=
  ((C10_add_frame (fun _ => true) "u1" docsState).1
    (by decide) (by decide) rfl (some row9) (FetchResult.failure "f")).1

end SmartBookmark
